import Mathlib

/-!
Verification of the `goto` scroll composable (`src/packages/vuetify/src/composables/goto.ts`).

Shallow embedding conventions:
* JS numbers are modelled as rationals (`ℚ`); `Math.floor` is `Int.floor`.
* A DOM element is an inductive record carrying the geometry the code reads
  (`offsetLeft/Top`, `offsetWidth/Height`, `scrollLeft/Top`, `scrollWidth/Height`,
  `clientWidth/Height`), an `isBody` flag modelling the identity comparison
  `container === document.body`, and the `offsetParent` chain.
* Externally observable side effects are made explicit: every function that the
  source lets write to a sink returns, next to its value, a list of `Effect`s
  (scroll-position writes and console writes).
* The promise/`requestAnimationFrame` machinery is modelled by explicit outcomes:
  `SyncResult.animate` means the synchronous part of `scrollTo` scheduled the first
  animation frame, `StepOutcome.nextFrame` means the frame callback scheduled a
  further frame, and the `resolved` constructors mean the promise was resolved
  (after which the code schedules nothing further).
* DOM lookups that the code delegates to the environment (selector resolution,
  `getComputedStyle(...)` + `parseInt` for the `--v-layout-top` property) enter the
  model as already-resolved parameters (`GoToTarget`, `layoutTop : Option ℤ`).
-/

namespace GotoSpec

/-- Externally observable side effects of the module: writing a container's scroll
position on one axis, or writing a record to the console. -/
inductive Effect where
  | setScroll (horizontal : Bool) (location : ℤ)
  | consoleLog (mn mx value : ℚ)
deriving DecidableEq

/-- DOM element model: the geometry fields read by `goto.ts`, the
`container === document.body` identity as a flag, and the `offsetParent` chain. -/
inductive HTMLElement : Type where
  | mk (offsetLeft offsetTop : ℚ) (offsetWidth offsetHeight : ℚ)
       (scrollLeft scrollTop : ℚ) (scrollWidth scrollHeight : ℚ)
       (clientWidth clientHeight : ℚ) (isBody : Bool)
       (offsetParent : Option HTMLElement)

namespace HTMLElement

def offsetLeft : HTMLElement → ℚ | .mk v _ _ _ _ _ _ _ _ _ _ _ => v

def offsetTop : HTMLElement → ℚ | .mk _ v _ _ _ _ _ _ _ _ _ _ => v

def offsetWidth : HTMLElement → ℚ | .mk _ _ v _ _ _ _ _ _ _ _ _ => v

def offsetHeight : HTMLElement → ℚ | .mk _ _ _ v _ _ _ _ _ _ _ _ => v

def scrollLeft : HTMLElement → ℚ | .mk _ _ _ _ v _ _ _ _ _ _ _ => v

def scrollTop : HTMLElement → ℚ | .mk _ _ _ _ _ v _ _ _ _ _ _ => v

def scrollWidth : HTMLElement → ℚ | .mk _ _ _ _ _ _ v _ _ _ _ _ => v

def scrollHeight : HTMLElement → ℚ | .mk _ _ _ _ _ _ _ v _ _ _ _ => v

def clientWidth : HTMLElement → ℚ | .mk _ _ _ _ _ _ _ _ v _ _ _ => v

def clientHeight : HTMLElement → ℚ | .mk _ _ _ _ _ _ _ _ _ v _ _ => v

def isBody : HTMLElement → Bool | .mk _ _ _ _ _ _ _ _ _ _ v _ => v

def offsetParent : HTMLElement → Option HTMLElement | .mk _ _ _ _ _ _ _ _ _ _ _ v => v

/-- Assignment `container.scrollLeft = v`. -/
def setScrollLeft : HTMLElement → ℚ → HTMLElement
  | .mk l t w h _ st sw sh cw ch b p, v => .mk l t w h v st sw sh cw ch b p

/-- Assignment `container.scrollTop = v`. -/
def setScrollTop : HTMLElement → ℚ → HTMLElement
  | .mk l t w h sl _ sw sh cw ch b p, v => .mk l t w h sl v sw sh cw ch b p

end HTMLElement

/-- Result of resolving the heterogeneous `_target` argument: a number, a concrete
element, or nothing (a selector with no match / an unmounted component handle). -/
inductive GoToTarget where
  | num (n : ℚ)
  | element (e : HTMLElement)
  | missing

/-- Embedding of the `while (el) { totalOffset += ...; el = el.offsetParent }` loop
inside `getOffset`. -/
def offsetChainSum (horizontal : Bool) : Option HTMLElement → ℚ
  | none => 0
  | some (.mk l t _ _ _ _ _ _ _ _ _ p) =>
      (if horizontal then l else t) + offsetChainSum horizontal p

/-- Embedding of `getOffset (target, horizontal, rtl)`: a numeric target is returned
unchanged except negated when `horizontal && rtl`; an element target accumulates
`offsetLeft`/`offsetTop` along the `offsetParent` chain; a missing target gives 0. -/
def getOffset (target : GoToTarget) (horizontal rtl : Bool) : ℚ :=
  match target with
  | .num n => if horizontal && rtl then -n else n
  | .element e => offsetChainSum horizontal (some e)
  | .missing => offsetChainSum horizontal none

/-- Embedding of `clampTarget (container, value, rtl, horizontal)`. Besides the
clamped value it returns its effect trace: the source contains
`console.log({ min, max, value })` before the return. -/
def clampTarget (container : HTMLElement) (value : ℚ) (rtl horizontal : Bool) :
    ℚ × List Effect :=
  let containerWidth := container.offsetWidth
  let containerHeight := container.offsetHeight
  let scrollWidth := container.scrollWidth
  let scrollHeight := container.scrollHeight
  let mn : ℚ := if horizontal then (if rtl then -(scrollWidth - containerWidth) else 0) else 0
  let mx : ℚ :=
    if horizontal then (if rtl then 0 else scrollWidth - containerWidth)
    else scrollHeight + -containerHeight
  (max (min value mx) mn, [Effect.consoleLog mn mx value])

/-- Easing option: a curve name or a direct function, as in `easing: string | ((t) => number)`. -/
inductive Easing where
  | str (s : String)
  | fn (f : ℚ → ℚ)

def linear (t : ℚ) : ℚ := t

def easeInQuad (t : ℚ) : ℚ := t ^ 2

def easeOutQuad (t : ℚ) : ℚ := t * (2 - t)

def easeInOutQuad (t : ℚ) : ℚ := if t < 1/2 then 2 * t ^ 2 else -1 + (4 - 2 * t) * t

def easeInCubic (t : ℚ) : ℚ := t ^ 3

def easeOutCubic (t : ℚ) : ℚ := (t - 1) ^ 3 + 1

def easeInOutCubic (t : ℚ) : ℚ :=
  if t < 1/2 then 4 * t ^ 3 else (t - 1) * (2 * t - 2) * (2 * t - 2) + 1

def easeInQuart (t : ℚ) : ℚ := t ^ 4

def easeOutQuart (t : ℚ) : ℚ := 1 - (t - 1) ^ 4

def easeInOutQuart (t : ℚ) : ℚ := if t < 1/2 then 8 * t ^ 4 else 1 - 8 * (t - 1) ^ 4

def easeInQuint (t : ℚ) : ℚ := t ^ 5

def easeOutQuint (t : ℚ) : ℚ := 1 + (t - 1) ^ 5

def easeInOutQuint (t : ℚ) : ℚ := if t < 1/2 then 16 * t ^ 5 else 1 + 16 * (t - 1) ^ 5

/-- Built-in `patterns` map from `genDefaults`. -/
def defaultPatterns (s : String) : Option (ℚ → ℚ) :=
  if s = "linear" then some linear
  else if s = "easeInQuad" then some easeInQuad
  else if s = "easeOutQuad" then some easeOutQuad
  else if s = "easeInOutQuad" then some easeInOutQuad
  else if s = "easeInCubic" then some easeInCubic
  else if s = "easeOutCubic" then some easeOutCubic
  else if s = "easeInOutCubic" then some easeInOutCubic
  else if s = "easeInQuart" then some easeInQuart
  else if s = "easeOutQuart" then some easeOutQuart
  else if s = "easeInOutQuart" then some easeInOutQuart
  else if s = "easeInQuint" then some easeInQuint
  else if s = "easeOutQuint" then some easeOutQuint
  else if s = "easeInOutQuint" then some easeInOutQuint
  else none

/-- Fully resolved `GoToOptions` (the `container` descriptor is resolved separately
by the DOM environment and enters the model as an `HTMLElement` parameter). -/
structure ResolvedOptions where
  duration : ℚ
  layout : Bool
  offset : ℚ
  easing : Easing
  patterns : String → Option (ℚ → ℚ)

/-- Per-call `Partial<GoToOptions>` overrides. -/
structure PartialGoToOptions where
  duration : Option ℚ
  layout : Option Bool
  offset : Option ℚ
  easing : Option Easing
  patterns : String → Option (ℚ → ℚ)

/-- Empty per-call override record. -/
def noOverrides : PartialGoToOptions :=
  { duration := none, layout := none, offset := none, easing := none,
    patterns := fun _ => none }

/-- Modelled from the spec: the deep-merge utility `mergeDeep` from `@/util` is not
under `src/`; per the spec, per-call options are merged over the base with the later
layer winning per key, including a per-entry deep merge of the nested `patterns` map. -/
def mergeOptions (base : ResolvedOptions) (p : PartialGoToOptions) : ResolvedOptions :=
  { duration := p.duration.getD base.duration
    layout := p.layout.getD base.layout
    offset := p.offset.getD base.offset
    easing := p.easing.getD base.easing
    patterns := fun s =>
      match p.patterns s with
      | some f => some f
      | none => base.patterns s }

/-- Modelled from the spec: merge of two partial override layers (`mergeDeep(_options, options)`
in `useGoTo`), later layer winning per key, `patterns` merged per entry. -/
def mergeDeepPartial (a b : PartialGoToOptions) : PartialGoToOptions :=
  { duration := match b.duration with | some d => some d | none => a.duration
    layout := match b.layout with | some l => some l | none => a.layout
    offset := match b.offset with | some o => some o | none => a.offset
    easing := match b.easing with | some e => some e | none => a.easing
    patterns := fun s =>
      match b.patterns s with
      | some f => some f
      | none => a.patterns s }

/-- Shared defaults from `genDefaults ()`. -/
def genDefaults : ResolvedOptions :=
  { duration := 300, layout := false, offset := 0,
    easing := .str "easeInOutCubic", patterns := defaultPatterns }

/-- Shared `GoToInstance`: reactive rtl flag (its value at call time) and resolved options. -/
structure GoToInst where
  rtl : Bool
  options : ResolvedOptions

/-- Embedding of `createGoTo (options, locale)`. -/
def createGoTo (options : PartialGoToOptions) (localeIsRtl : Bool) : GoToInst :=
  { rtl := localeIsRtl, options := mergeOptions genDefaults options }

/-- Embedding of `const ease = typeof options.easing === 'function' ? options.easing
: options.patterns[options.easing]`. -/
def resolveEase (options : ResolvedOptions) : Option (ℚ → ℚ) :=
  match options.easing with
  | .fn f => some f
  | .str s => options.patterns s

/-- String interpolation of the easing option into the `TypeError` message (a direct
function never reaches the message: `resolveEase` succeeds on it). -/
def easingToString : Easing → String
  | .str s => s
  | .fn _ => "[function]"

/-- Outcome of the synchronous part of `scrollTo` (everything before the promise body
runs): the thrown `TypeError`, an immediately resolved promise, or a promise whose
first animation frame has been scheduled with the recorded run parameters. `animate`
is the only outcome that schedules an animation frame. -/
inductive SyncResult where
  | err (msg : String)
  | resolved (value : ℚ)
  | animate (ease : ℚ → ℚ) (duration startLocation targetLocation : ℚ)

/-- Outcome of one `step` frame callback: the promise was resolved with `value`
(no further frame is scheduled), or `requestAnimationFrame(step)` scheduled the next
frame. -/
inductive StepOutcome where
  | resolved (value : ℚ)
  | nextFrame
deriving DecidableEq

/-- Normalization `(typeof _target === 'number' ? _target : getTarget(_target)) ?? 0`:
a target that resolves to nothing falls back to the number 0. -/
def resolveTarget : GoToTarget → GoToTarget
  | .missing => .num 0
  | t => t

/-- Target location before clamping: the offset of the (already normalized) target,
relative to the container for element targets, adjusted by the `--v-layout-top`
computed-style property when the `layout` option is set, plus the additive `offset`
option. -/
def preClampLocation (target : GoToTarget) (options : ResolvedOptions)
    (horizontal rtl : Bool) (container : HTMLElement) (layoutTop : Option ℤ) : ℚ :=
  (match target with
   | .num n => getOffset (.num n) horizontal rtl
   | .element e =>
       let rel := getOffset (.element e) horizontal rtl -
         getOffset (.element container) horizontal rtl
       if options.layout then
         match layoutTop with
         | some off => rel - (off : ℚ)
         | none => rel
       else rel
   | .missing => 0) + options.offset

/-- Embedding of the synchronous part of `scrollTo (_target, _options, horizontal, goTo)`:
option merge, rtl read, target normalization, easing resolution (with the `TypeError`
on an unresolved name), target-location computation (`preClampLocation`), clamping,
and the `targetLocation === startLocation` short-circuit.
`container` is the already-resolved scroll container, and `layoutTop` is the parsed
`--v-layout-top` computed-style property (`none` when absent/empty). The second
component is the effect trace emitted so far. -/
def scrollToSync (_target : GoToTarget) (_options : PartialGoToOptions) (horizontal : Bool)
    (goTo : GoToInst) (container : HTMLElement) (layoutTop : Option ℤ) :
    SyncResult × List Effect :=
  let options := mergeOptions goTo.options _options
  let rtl := goTo.rtl
  let target := resolveTarget _target
  match resolveEase options with
  | none =>
      (.err ("Easing function \"" ++ easingToString options.easing ++ "\" not found."), [])
  | some ease =>
      let clamped :=
        clampTarget container (preClampLocation target options horizontal rtl container layoutTop)
          rtl horizontal
      let targetLocation := clamped.1
      let startLocation := if horizontal then container.scrollLeft else container.scrollTop
      if targetLocation = startLocation then (.resolved targetLocation, clamped.2)
      else (.animate ease options.duration startLocation targetLocation, clamped.2)

/-- Embedding of the `step (currentTime)` frame callback: elapsed time, progress
(`Math.abs(options.duration ? Math.min(timeElapsed / options.duration, 1) : 1)`),
eased and floored location, scroll-position write, resolution at progress 1, and the
per-axis early-termination check against the scrollable boundary.
`docClientWidth`/`docClientHeight` model `document.documentElement.clientWidth/Height`
used when the container is `document.body`. -/
def step (horizontal : Bool) (ease : ℚ → ℚ)
    (duration startTime startLocation targetLocation : ℚ)
    (docClientWidth docClientHeight : ℚ) (container : HTMLElement) (currentTime : ℚ) :
    HTMLElement × StepOutcome × List Effect :=
  let timeElapsed := currentTime - startTime
  let progress := |(if duration = 0 then (1 : ℚ) else min (timeElapsed / duration) 1)|
  let location : ℤ := ⌊startLocation + (targetLocation - startLocation) * ease progress⌋
  let c := if horizontal then container.setScrollLeft (location : ℚ)
           else container.setScrollTop (location : ℚ)
  let effs := [Effect.setScroll horizontal location]
  if progress = 1 then (c, .resolved targetLocation, effs)
  else if horizontal = false then
    let clientSize := if c.isBody then docClientHeight else c.clientHeight
    if targetLocation > c.scrollTop ∧ clientSize + c.scrollTop ≥ c.scrollHeight then
      (c, .resolved targetLocation, effs)
    else (c, .nextFrame, effs)
  else
    let clientSize := if c.isBody then docClientWidth else c.clientWidth
    if targetLocation > c.scrollLeft ∧ clientSize + c.scrollLeft ≥ c.scrollWidth then
      (c, .resolved targetLocation, effs)
    else (c, .nextFrame, effs)

/-- Embedding of a call through the function returned by `useGoTo (_options)`:
the injected instance is wrapped with `rtl: computed(() => goToInstance.rtl.value ||
isRtl.value)` and the call delegates to `scrollTo (target, mergeDeep(_options, options),
horizontal, goTo)`; `horizontal = false` is `go(...)`, `horizontal = true` is
`go.horizontal(...)`. -/
def useGoToCall (goToInstance : GoToInst) (isRtl : Bool) (_options : PartialGoToOptions)
    (target : GoToTarget) (options : PartialGoToOptions) (horizontal : Bool)
    (container : HTMLElement) (layoutTop : Option ℤ) : SyncResult × List Effect :=
  let goTo : GoToInst := { rtl := goToInstance.rtl || isRtl, options := goToInstance.options }
  scrollToSync target (mergeDeepPartial _options options) horizontal goTo container layoutTop

/-- Scroll position on the requested axis (`horizontal ? scrollLeft : scrollTop`). -/
def scrollPos (horizontal : Bool) (c : HTMLElement) : ℚ :=
  if horizontal then c.scrollLeft else c.scrollTop

/-- Client size on the requested axis, with the `document.body` special case. -/
def clientSizeOf (horizontal : Bool) (docClientWidth docClientHeight : ℚ)
    (c : HTMLElement) : ℚ :=
  if horizontal then (if c.isBody then docClientWidth else c.clientWidth)
  else (if c.isBody then docClientHeight else c.clientHeight)

/-- Total scrollable size on the requested axis. -/
def totalSize (horizontal : Bool) (c : HTMLElement) : ℚ :=
  if horizontal then c.scrollWidth else c.scrollHeight

/-- Spec-side progress formula: `min(elapsed/duration, 1)`, forced to 1 when the
duration is 0. The source computes `Math.abs` of this; the claims state it without
the absolute value. -/
def progressOf (duration timeElapsed : ℚ) : ℚ :=
  if duration = 0 then 1 else min (timeElapsed / duration) 1

/-- Spec-side description of the offset-parent chain: the element followed by its
successive offset parents. -/
def offsetChainList : Option HTMLElement → List HTMLElement
  | none => []
  | some (.mk l t w h sl st sw sh cw ch b p) =>
      HTMLElement.mk l t w h sl st sw sh cw ch b p :: offsetChainList p

/-- Value the promise is (or will be) resolved with: the final position recorded in
the outcome of the synchronous phase (`none` for the thrown error). -/
def SyncResult.targetValue : SyncResult → Option ℚ
  | .err _ => none
  | .resolved v => some v
  | .animate _ _ _ t => some t

/-- Element with the given axis offsets and an offset parent, all other geometry zero. -/
def mkElem (l t : ℚ) (p : Option HTMLElement) : HTMLElement :=
  .mk l t 0 0 0 0 0 0 0 0 false p

/-- Container fixture: `scrollWidth = scrollHeight = 1000`, outer size 400, scrolled
to the origin. -/
def cBase : HTMLElement :=
  .mk 0 0 400 400 0 0 1000 1000 400 400 false none

/-- Container fixture like `cBase` but vertically scrolled to 100. -/
def cMid : HTMLElement :=
  .mk 0 0 400 400 0 100 1000 1000 400 400 false none

/-- Container fixture at its vertical scrollable boundary:
`clientHeight + scrollTop = 100 + 100 ≥ scrollHeight = 200`. -/
def cBoundary : HTMLElement :=
  .mk 0 0 100 100 0 100 200 200 100 100 false none

/-- Degenerate container fixture: zero size and zero scrollable range. -/
def cZero : HTMLElement :=
  .mk 0 0 0 0 0 0 0 0 0 0 false none

/-- Element nested three levels deep with vertical offsets 10, 20, 30 along its
offset-parent chain. -/
def threeDeep : HTMLElement :=
  mkElem 0 10 (some (mkElem 0 20 (some (mkElem 0 30 none))))

end GotoSpec

namespace GotoSpec

section SetterLemmas

variable (c : HTMLElement) (v : ℚ)

@[simp] lemma setScrollTop_scrollTop : (c.setScrollTop v).scrollTop = v := by
  cases c; rfl

@[simp] lemma setScrollTop_scrollLeft : (c.setScrollTop v).scrollLeft = c.scrollLeft := by
  cases c; rfl

@[simp] lemma setScrollTop_scrollWidth : (c.setScrollTop v).scrollWidth = c.scrollWidth := by
  cases c; rfl

@[simp] lemma setScrollTop_scrollHeight : (c.setScrollTop v).scrollHeight = c.scrollHeight := by
  cases c; rfl

@[simp] lemma setScrollTop_clientWidth : (c.setScrollTop v).clientWidth = c.clientWidth := by
  cases c; rfl

@[simp] lemma setScrollTop_clientHeight : (c.setScrollTop v).clientHeight = c.clientHeight := by
  cases c; rfl

@[simp] lemma setScrollTop_isBody : (c.setScrollTop v).isBody = c.isBody := by
  cases c; rfl

@[simp] lemma setScrollLeft_scrollLeft : (c.setScrollLeft v).scrollLeft = v := by
  cases c; rfl

@[simp] lemma setScrollLeft_scrollTop : (c.setScrollLeft v).scrollTop = c.scrollTop := by
  cases c; rfl

@[simp] lemma setScrollLeft_scrollWidth : (c.setScrollLeft v).scrollWidth = c.scrollWidth := by
  cases c; rfl

@[simp] lemma setScrollLeft_scrollHeight : (c.setScrollLeft v).scrollHeight = c.scrollHeight := by
  cases c; rfl

@[simp] lemma setScrollLeft_clientWidth : (c.setScrollLeft v).clientWidth = c.clientWidth := by
  cases c; rfl

@[simp] lemma setScrollLeft_clientHeight : (c.setScrollLeft v).clientHeight = c.clientHeight := by
  cases c; rfl

@[simp] lemma setScrollLeft_isBody : (c.setScrollLeft v).isBody = c.isBody := by
  cases c; rfl

end SetterLemmas

/-- Clamping to `[mn, mx]` by `max (min v mx) mn` is idempotent, also when `mn > mx`. -/
lemma clamp_formula_idem (mn mx v : ℚ) :
    max (min (max (min v mx) mn) mx) mn = max (min v mx) mn := by
  rcases le_total mn mx with h | h <;>
    rcases le_total v mx with h1 | h1 <;>
    rcases le_total v mn with h2 | h2 <;>
    simp [min_def, max_def] <;> split_ifs <;> linarith

/-- Clamped value of `clampTarget` written as one `max`/`min` expression over the
per-axis bounds. -/
lemma clampTarget_val (c : HTMLElement) (v : ℚ) (rtl horizontal : Bool) :
    (clampTarget c v rtl horizontal).1 =
      max (min v (if horizontal then (if rtl then 0 else c.scrollWidth - c.offsetWidth)
                  else c.scrollHeight + -c.offsetHeight))
          (if horizontal then (if rtl then -(c.scrollWidth - c.offsetWidth) else 0) else 0) :=
  rfl

/-- Effect trace of `clampTarget`: the `console.log({ min, max, value })` record. -/
lemma clampTarget_trace (c : HTMLElement) (v : ℚ) (rtl horizontal : Bool) :
    (clampTarget c v rtl horizontal).2 =
      [Effect.consoleLog
        (if horizontal then (if rtl then -(c.scrollWidth - c.offsetWidth) else 0) else 0)
        (if horizontal then (if rtl then 0 else c.scrollWidth - c.offsetWidth)
         else c.scrollHeight + -c.offsetHeight)
        v] :=
  rfl

/-- C2: `clampTarget` returns `max(min(value, max), min)` with bounds
`[0, scrollWidth − offsetWidth]` for horizontal ltr, `[−(scrollWidth − offsetWidth), 0]`
for horizontal rtl, and `[0, scrollHeight − offsetHeight]` for the vertical axis
(the spec's `clientOuterWidth`/`clientOuterHeight` are the element's
`offsetWidth`/`offsetHeight`); for a horizontal rtl container with `scrollWidth = 1000`
and outer width 400 every clamped value lies in `[−600, 0]` and clamping 500 yields 0;
a degenerate zero-size container clamps every value to 0 (the function is total, hence
never throws); and clamping is idempotent. -/
theorem clampTarget_spec :
    (∀ (c : HTMLElement) (v : ℚ),
      (clampTarget c v false true).1 = max (min v (c.scrollWidth - c.offsetWidth)) 0) ∧
    (∀ (c : HTMLElement) (v : ℚ),
      (clampTarget c v true true).1 = max (min v 0) (-(c.scrollWidth - c.offsetWidth))) ∧
    (∀ (c : HTMLElement) (v : ℚ) (rtl : Bool),
      (clampTarget c v rtl false).1 = max (min v (c.scrollHeight - c.offsetHeight)) 0) ∧
    ((clampTarget cBase 500 true true).1 = 0 ∧
      ∀ v : ℚ, -600 ≤ (clampTarget cBase v true true).1 ∧ (clampTarget cBase v true true).1 ≤ 0) ∧
    (∀ (v : ℚ) (rtl horizontal : Bool), (clampTarget cZero v rtl horizontal).1 = 0) ∧
    (∀ (c : HTMLElement) (v : ℚ) (rtl horizontal : Bool),
      (clampTarget c ((clampTarget c v rtl horizontal).1) rtl horizontal).1 =
        (clampTarget c v rtl horizontal).1) := by
  have hBase : ∀ v : ℚ, (clampTarget cBase v true true).1 = max (min v 0) (-600) := by
    intro v
    rw [clampTarget_val]
    norm_num [cBase, HTMLElement.scrollWidth, HTMLElement.offsetWidth]
  refine ⟨fun c v => rfl, fun c v => rfl, ?_, ⟨?_, fun v => ?_⟩, ?_, ?_⟩
  · intro c v rtl
    rw [clampTarget_val]
    simp [sub_eq_add_neg]
  · rw [hBase]
    norm_num [min_def, max_def]
  · rw [hBase]
    exact ⟨le_max_right _ _, max_le (min_le_right _ _) (by norm_num)⟩
  · intro v rtl horizontal
    have h0 : (clampTarget cZero v rtl horizontal).1 = max (min v 0) 0 := by
      rw [clampTarget_val]
      cases rtl <;> cases horizontal <;>
        norm_num [cZero, HTMLElement.scrollWidth, HTMLElement.offsetWidth,
          HTMLElement.scrollHeight, HTMLElement.offsetHeight]
    rw [h0]
    exact max_eq_right (min_le_right _ _)
  · intro c v rtl horizontal
    rw [clampTarget_val, clampTarget_val]
    exact clamp_formula_idem _ _ _

/-- Unfolding of `scrollToSync` when the easing option resolves. -/
lemma scrollToSync_eq {_target : GoToTarget} {_options : PartialGoToOptions}
    {horizontal : Bool} {goTo : GoToInst} {container : HTMLElement} {layoutTop : Option ℤ}
    {ease : ℚ → ℚ}
    (hres : resolveEase (mergeOptions goTo.options _options) = some ease) :
    scrollToSync _target _options horizontal goTo container layoutTop =
      (if (clampTarget container
            (preClampLocation (resolveTarget _target) (mergeOptions goTo.options _options)
              horizontal goTo.rtl container layoutTop) goTo.rtl horizontal).1 =
          scrollPos horizontal container then
        (.resolved (clampTarget container
            (preClampLocation (resolveTarget _target) (mergeOptions goTo.options _options)
              horizontal goTo.rtl container layoutTop) goTo.rtl horizontal).1,
         (clampTarget container
            (preClampLocation (resolveTarget _target) (mergeOptions goTo.options _options)
              horizontal goTo.rtl container layoutTop) goTo.rtl horizontal).2)
      else
        (.animate ease (mergeOptions goTo.options _options).duration
            (scrollPos horizontal container)
            (clampTarget container
              (preClampLocation (resolveTarget _target) (mergeOptions goTo.options _options)
                horizontal goTo.rtl container layoutTop) goTo.rtl horizontal).1,
         (clampTarget container
            (preClampLocation (resolveTarget _target) (mergeOptions goTo.options _options)
              horizontal goTo.rtl container layoutTop) goTo.rtl horizontal).2)) := by
  simp only [scrollToSync, hres, scrollPos]

/-- Effect trace of the synchronous phase when the easing option resolves: exactly the
console write performed by `clampTarget`. -/
lemma scrollToSync_trace {_target : GoToTarget} {_options : PartialGoToOptions}
    {horizontal : Bool} {goTo : GoToInst} {container : HTMLElement} {layoutTop : Option ℤ}
    {ease : ℚ → ℚ}
    (hres : resolveEase (mergeOptions goTo.options _options) = some ease) :
    (scrollToSync _target _options horizontal goTo container layoutTop).2 =
      (clampTarget container
        (preClampLocation (resolveTarget _target) (mergeOptions goTo.options _options)
          horizontal goTo.rtl container layoutTop) goTo.rtl horizontal).2 := by
  rw [scrollToSync_eq hres]
  split_ifs <;> rfl

/-- C3 (code bug): evaluated at the concrete failing input — a numeric target 500, a
horizontal rtl call with default options on the `cBase` container — the synchronous
phase of `scrollTo` emits a console write (`console.log({ min, max, value })` inside
`clampTarget`), an externally observable side effect other than the container's
scroll position and the returned promise. -/
theorem scrollTo_console_write :
    (scrollToSync (.num 500) noOverrides true ⟨true, genDefaults⟩ cBase none).2 =
      [Effect.consoleLog (-600) 0 (-500)] := by
  have hres : resolveEase (mergeOptions (GoToInst.mk true genDefaults).options noOverrides) =
      some easeInOutCubic := rfl
  rw [scrollToSync_trace hres, clampTarget_trace]
  norm_num [cBase, HTMLElement.scrollWidth, HTMLElement.offsetWidth, preClampLocation,
    resolveTarget, getOffset, mergeOptions, noOverrides, genDefaults]

/-- First component of `scrollToSync` when the easing option resolves: the resolved or
animate outcome, selected by the short-circuit test. -/
lemma scrollToSync_fst {_target : GoToTarget} {_options : PartialGoToOptions}
    {horizontal : Bool} {goTo : GoToInst} {container : HTMLElement} {layoutTop : Option ℤ}
    {ease : ℚ → ℚ}
    (hres : resolveEase (mergeOptions goTo.options _options) = some ease) :
    (scrollToSync _target _options horizontal goTo container layoutTop).1 =
      (if (clampTarget container
            (preClampLocation (resolveTarget _target) (mergeOptions goTo.options _options)
              horizontal goTo.rtl container layoutTop) goTo.rtl horizontal).1 =
          scrollPos horizontal container then
        SyncResult.resolved (clampTarget container
          (preClampLocation (resolveTarget _target) (mergeOptions goTo.options _options)
            horizontal goTo.rtl container layoutTop) goTo.rtl horizontal).1
      else
        SyncResult.animate ease (mergeOptions goTo.options _options).duration
          (scrollPos horizontal container)
          (clampTarget container
            (preClampLocation (resolveTarget _target) (mergeOptions goTo.options _options)
              horizontal goTo.rtl container layoutTop) goTo.rtl horizontal).1) := by
  rw [scrollToSync_eq hres]
  split_ifs <;> rfl

/-- C4: when the merged easing option is a string that does not resolve in the merged
patterns map, `scrollTo` (on either axis) returns exactly the thrown `TypeError` whose
message names the offending easing value, with an empty effect trace — so no animation
frame was scheduled and no target position was computed (every successful path emits
the clamp-stage console effect, which is absent here); when the easing option is a
direct function it resolves to that very function and no error is raised. -/
theorem scrollTo_easing_error :
    (∀ (_target : GoToTarget) (_options : PartialGoToOptions) (horizontal : Bool)
       (goTo : GoToInst) (container : HTMLElement) (layoutTop : Option ℤ) (s : String),
       (mergeOptions goTo.options _options).easing = .str s →
       (mergeOptions goTo.options _options).patterns s = none →
       scrollToSync _target _options horizontal goTo container layoutTop =
         (.err ("Easing function \"" ++ s ++ "\" not found."), [])) ∧
    (∀ (_target : GoToTarget) (_options : PartialGoToOptions) (horizontal : Bool)
       (goTo : GoToInst) (container : HTMLElement) (layoutTop : Option ℤ) (f : ℚ → ℚ),
       (mergeOptions goTo.options _options).easing = .fn f →
       resolveEase (mergeOptions goTo.options _options) = some f ∧
       ∀ msg, (scrollToSync _target _options horizontal goTo container layoutTop).1 ≠
         .err msg) := by
  constructor
  · intro _target _options horizontal goTo container layoutTop s h1 h2
    simp only [scrollToSync, resolveEase, easingToString, h1, h2]
  · intro _target _options horizontal goTo container layoutTop f hfn
    have hres : resolveEase (mergeOptions goTo.options _options) = some f := by
      simp only [resolveEase, hfn]
    refine ⟨hres, fun msg => ?_⟩
    rw [scrollToSync_fst hres]
    split_ifs <;> simp

/-- Witness for `scrollTo_easing_error`: the unresolvable name `"doesNotExist"` under
default options yields the error on both axes with an empty trace, and a direct
function easing resolves to itself. -/
theorem scrollTo_easing_error_witness :
    (scrollToSync (.num 5) (PartialGoToOptions.mk none none none (some (.str "doesNotExist"))
        (fun _ => none)) false ⟨false, genDefaults⟩ cBase none =
      (.err "Easing function \"doesNotExist\" not found.", [])) ∧
    (scrollToSync (.num 5) (PartialGoToOptions.mk none none none (some (.str "doesNotExist"))
        (fun _ => none)) true ⟨false, genDefaults⟩ cBase none =
      (.err "Easing function \"doesNotExist\" not found.", [])) ∧
    resolveEase (mergeOptions genDefaults (PartialGoToOptions.mk none none none
        (some (.fn linear)) (fun _ => none))) = some linear := by
  refine ⟨scrollTo_easing_error.1 _ _ false ⟨false, genDefaults⟩ cBase none
      "doesNotExist" rfl rfl,
    scrollTo_easing_error.1 _ _ true ⟨false, genDefaults⟩ cBase none
      "doesNotExist" rfl rfl,
    (scrollTo_easing_error.2 (.num 5)
      (PartialGoToOptions.mk none none none (some (.fn linear)) (fun _ => none))
      false ⟨false, genDefaults⟩ cBase none linear rfl).1⟩

/-- C5: whenever the computed (clamped) target location equals the container's current
scroll position on the requested axis, the synchronous phase returns
`SyncResult.resolved` with that value — the promise resolves immediately; since
`SyncResult.animate` is the only outcome that schedules an animation frame, zero
frames are scheduled. -/
theorem scrollTo_short_circuit
    (_target : GoToTarget) (_options : PartialGoToOptions) (horizontal : Bool)
    (goTo : GoToInst) (container : HTMLElement) (layoutTop : Option ℤ) (ease : ℚ → ℚ)
    (hres : resolveEase (mergeOptions goTo.options _options) = some ease)
    (heq : (clampTarget container
        (preClampLocation (resolveTarget _target) (mergeOptions goTo.options _options)
          horizontal goTo.rtl container layoutTop) goTo.rtl horizontal).1 =
      scrollPos horizontal container) :
    (scrollToSync _target _options horizontal goTo container layoutTop).1 =
      .resolved ((clampTarget container
        (preClampLocation (resolveTarget _target) (mergeOptions goTo.options _options)
          horizontal goTo.rtl container layoutTop) goTo.rtl horizontal).1) := by
  rw [scrollToSync_fst hres, if_pos heq]

/-- Witness for `scrollTo_short_circuit`: a numeric vertical target 100 on a container
already scrolled to 100 resolves immediately with 100. -/
theorem scrollTo_short_circuit_witness :
    (scrollToSync (.num 100) noOverrides false ⟨false, genDefaults⟩ cMid none).1 =
      .resolved 100 := by
  have heq : (clampTarget cMid
      (preClampLocation (resolveTarget (.num 100)) (mergeOptions genDefaults noOverrides)
        false false cMid none) false false).1 = scrollPos false cMid := by
    rw [clampTarget_val]
    norm_num [preClampLocation, resolveTarget, getOffset, mergeOptions, noOverrides,
      genDefaults, scrollPos, cMid, HTMLElement.scrollTop, HTMLElement.scrollHeight,
      HTMLElement.offsetHeight, min_def, max_def]
  have h := scrollTo_short_circuit (.num 100) noOverrides false ⟨false, genDefaults⟩
    cMid none easeInOutCubic rfl heq
  rw [h, heq]
  norm_num [scrollPos, cMid, HTMLElement.scrollTop]

/-- C10: through the facade returned by `useGoTo`, the rtl flag used both for numeric
offset negation and for clamping is `goToInstance.rtl || isRtl` — the logical OR of
the injected instance's flag and the ambient locale's flag at call time; concretely,
with an instance whose own flag is `false` but a locale flag `true`, a horizontal call
with target 50 computes target −50 (negated and clamped with rtl bounds), whereas
`scrollTo` invoked with the raw instance (flag `false` alone) computes target 50. -/
theorem useGoTo_rtl_or :
    (∀ (inst : GoToInst) (isRtl : Bool) (fOpts cOpts : PartialGoToOptions)
       (horizontal : Bool) (n : ℚ) (container : HTMLElement) (layoutTop : Option ℤ)
       (ease : ℚ → ℚ),
       resolveEase (mergeOptions inst.options (mergeDeepPartial fOpts cOpts)) = some ease →
       ((useGoToCall inst isRtl fOpts (.num n) cOpts horizontal container layoutTop).1).targetValue =
         some ((clampTarget container
           (getOffset (.num n) horizontal (inst.rtl || isRtl) +
             (mergeOptions inst.options (mergeDeepPartial fOpts cOpts)).offset)
           (inst.rtl || isRtl) horizontal).1)) ∧
    ((useGoToCall ⟨false, genDefaults⟩ true noOverrides (.num 50) noOverrides true
        cBase none).1).targetValue = some (-50) ∧
    ((scrollToSync (.num 50) noOverrides true ⟨false, genDefaults⟩ cBase none).1).targetValue =
      some 50 := by
  have key : ∀ (inst : GoToInst) (isRtl : Bool) (fOpts cOpts : PartialGoToOptions)
      (horizontal : Bool) (n : ℚ) (container : HTMLElement) (layoutTop : Option ℤ)
      (ease : ℚ → ℚ),
      resolveEase (mergeOptions inst.options (mergeDeepPartial fOpts cOpts)) = some ease →
      ((useGoToCall inst isRtl fOpts (.num n) cOpts horizontal container layoutTop).1).targetValue =
        some ((clampTarget container
          (getOffset (.num n) horizontal (inst.rtl || isRtl) +
            (mergeOptions inst.options (mergeDeepPartial fOpts cOpts)).offset)
          (inst.rtl || isRtl) horizontal).1) := by
    intro inst isRtl fOpts cOpts horizontal n container layoutTop ease hres
    show ((scrollToSync (.num n) (mergeDeepPartial fOpts cOpts) horizontal
        ⟨inst.rtl || isRtl, inst.options⟩ container layoutTop).1).targetValue = _
    rw [@scrollToSync_fst (.num n) (mergeDeepPartial fOpts cOpts) horizontal
      ⟨inst.rtl || isRtl, inst.options⟩ container layoutTop ease hres]
    split_ifs <;> simp [SyncResult.targetValue, preClampLocation, resolveTarget]
  refine ⟨key, ?_, ?_⟩
  · rw [key ⟨false, genDefaults⟩ true noOverrides noOverrides true 50 cBase none
      easeInOutCubic rfl]
    rw [clampTarget_val]
    norm_num [getOffset, mergeOptions, mergeDeepPartial, noOverrides, genDefaults, cBase,
      HTMLElement.scrollWidth, HTMLElement.offsetWidth, min_def, max_def]
  · rw [@scrollToSync_fst (GoToTarget.num 50) noOverrides true ⟨false, genDefaults⟩
      cBase none easeInOutCubic rfl]
    split_ifs with h
    · rw [clampTarget_val] at h
      norm_num [preClampLocation, resolveTarget, getOffset, mergeOptions, noOverrides,
        genDefaults, scrollPos, cBase, HTMLElement.scrollWidth, HTMLElement.offsetWidth,
        HTMLElement.scrollLeft, min_def, max_def] at h
    · rw [clampTarget_val]
      simp only [SyncResult.targetValue]
      norm_num [preClampLocation, resolveTarget, getOffset, mergeOptions, noOverrides,
        genDefaults, cBase, HTMLElement.scrollWidth, HTMLElement.offsetWidth,
        min_def, max_def]

/-- Witness for `useGoTo_rtl_or`: the quantified conjunct instantiated at the concrete
instance with flag `false`, locale flag `true`, horizontal target 50 on `cBase`. -/
theorem useGoTo_rtl_or_witness :
    ((useGoToCall ⟨false, genDefaults⟩ true noOverrides (.num 50) noOverrides true
        cBase none).1).targetValue =
      some ((clampTarget cBase
        (getOffset (.num 50) true ((false : Bool) || true) +
          (mergeOptions genDefaults (mergeDeepPartial noOverrides noOverrides)).offset)
        ((false : Bool) || true) true).1) :=
  useGoTo_rtl_or.1 ⟨false, genDefaults⟩ true noOverrides noOverrides true 50 cBase none
    easeInOutCubic rfl

/-- C8: a numeric target is returned unchanged by `getOffset` unless both `horizontal`
and `rtl` hold, in which case it is negated; in particular
`getOffset(50, true, true) = -50` and `getOffset(50, true, false) = 50`. -/
theorem getOffset_numeric :
    (∀ n : ℚ, getOffset (.num n) true true = -n) ∧
    (∀ (n : ℚ) (horizontal rtl : Bool), ¬(horizontal = true ∧ rtl = true) →
      getOffset (.num n) horizontal rtl = n) ∧
    getOffset (.num 50) true true = -50 ∧
    getOffset (.num 50) true false = 50 := by
  refine ⟨fun n => rfl, ?_, rfl, rfl⟩
  intro n horizontal rtl h
  cases horizontal <;> cases rtl <;> simp [getOffset] at h ⊢

/-- Witness for `getOffset_numeric`: instantiating the hypothesis-bearing conjunct at
`n = 50`, `horizontal = true`, `rtl = false`. -/
theorem getOffset_numeric_witness : getOffset (.num 50) true false = 50 :=
  getOffset_numeric.2.1 50 true false (by simp)

/-- Sum of the loop inside `getOffset` equals the per-axis offsets summed over the
offset-parent chain. -/
lemma offsetChainSum_eq_map_sum (horizontal : Bool) : ∀ (o : Option HTMLElement),
    offsetChainSum horizontal o =
      ((offsetChainList o).map
        (fun x => if horizontal then x.offsetLeft else x.offsetTop)).sum
  | none => by simp [offsetChainSum, offsetChainList]
  | some (.mk l t w h sl st sw sh cw ch b p) => by
      simp only [offsetChainSum, offsetChainList, List.map_cons, List.sum_cons]
      rw [offsetChainSum_eq_map_sum horizontal p]
      cases horizontal <;> rfl

/-- C9: for an element target, `getOffset` is the sum of the per-axis offsets
(`offsetLeft` horizontally, `offsetTop` vertically) over the chain consisting of the
element and its successive offset parents; an element nested three levels deep with
vertical offsets 10, 20, 30 yields 60; a target that resolves to nothing yields 0. -/
theorem getOffset_element :
    (∀ (e : HTMLElement) (horizontal rtl : Bool),
      getOffset (.element e) horizontal rtl =
        ((offsetChainList (some e)).map
          (fun x => if horizontal then x.offsetLeft else x.offsetTop)).sum) ∧
    (∀ horizontal rtl : Bool, getOffset .missing horizontal rtl = 0) ∧
    getOffset (.element threeDeep) false false = 60 := by
  refine ⟨fun e horizontal rtl => offsetChainSum_eq_map_sum horizontal (some e),
    fun horizontal rtl => by simp [getOffset, offsetChainSum],
    by norm_num [getOffset, offsetChainSum, threeDeep, mkElem]⟩

/-- With a non-negative duration and a frame timestamp not before the start timestamp,
the `Math.abs` in the progress computation is the identity: the progress equals
`progressOf`. -/
lemma abs_progress_eq {duration startTime currentTime : ℚ}
    (hdur : 0 ≤ duration) (ht : startTime ≤ currentTime) :
    |(if duration = 0 then (1 : ℚ) else min ((currentTime - startTime) / duration) 1)| =
      progressOf duration (currentTime - startTime) := by
  by_cases h0 : duration = 0
  · simp [progressOf, h0]
  · have hd : 0 < duration := lt_of_le_of_ne hdur (Ne.symm h0)
    have hte : (0 : ℚ) ≤ currentTime - startTime := sub_nonneg.mpr ht
    have hmin : (0 : ℚ) ≤ min ((currentTime - startTime) / duration) 1 :=
      le_min (div_nonneg hte hd.le) zero_le_one
    simp [progressOf, h0, abs_of_nonneg hmin]

/-- The progress is non-negative under the same conditions. -/
lemma progressOf_nonneg {duration te : ℚ} (hdur : 0 ≤ duration) (hte : 0 ≤ te) :
    0 ≤ progressOf duration te := by
  unfold progressOf
  split_ifs with h0
  · norm_num
  · exact le_min (div_nonneg hte hdur) zero_le_one

/-- The progress never exceeds 1. -/
lemma progressOf_le_one (duration te : ℚ) : progressOf duration te ≤ 1 := by
  unfold progressOf
  split_ifs with h0
  · norm_num
  · exact min_le_right _ _

/-- C1: on every animation-frame callback with a non-negative duration and a timestamp
not before the start timestamp, `step` (a) emits exactly one scroll write, to
`floor(startLocation + (targetLocation − startLocation) · ease(progress))` with
`progress = min(elapsed/duration, 1)` (forced to 1 when the duration is 0), (b) leaves
the container's scroll position on the requested axis at that floored value, and
(c) when progress reaches 1 resolves the promise with `targetLocation`
(`StepOutcome.resolved`, which schedules no further frame). -/
theorem step_frame (horizontal : Bool) (ease : ℚ → ℚ)
    (duration startTime startLocation targetLocation dcw dch : ℚ)
    (c : HTMLElement) (currentTime : ℚ)
    (hdur : 0 ≤ duration) (ht : startTime ≤ currentTime) :
    (step horizontal ease duration startTime startLocation targetLocation dcw dch
        c currentTime).2.2 =
      [Effect.setScroll horizontal
        ⌊startLocation + (targetLocation - startLocation) *
          ease (progressOf duration (currentTime - startTime))⌋] ∧
    scrollPos horizontal
        (step horizontal ease duration startTime startLocation targetLocation dcw dch
          c currentTime).1 =
      (⌊startLocation + (targetLocation - startLocation) *
        ease (progressOf duration (currentTime - startTime))⌋ : ℚ) ∧
    (progressOf duration (currentTime - startTime) = 1 →
      (step horizontal ease duration startTime startLocation targetLocation dcw dch
          c currentTime).2.1 = .resolved targetLocation) := by
  have habs := abs_progress_eq hdur ht
  refine ⟨?_, ?_, fun hp => ?_⟩
  · simp only [step, habs]
    split_ifs <;> rfl
  · cases horizontal
    · simp only [step, habs, Bool.false_eq_true, if_false, eq_self_iff_true, if_true]
      split_ifs <;> simp [scrollPos]
    · simp only [step, habs, Bool.true_eq_false, if_false, eq_self_iff_true, if_true]
      split_ifs <;> simp [scrollPos]
  · simp only [step, habs, if_pos hp]

/-- Witness for `step_frame`: a vertical frame at half of a 300ms run with the linear
easing writes scroll position 50 out of a 0 → 100 run. -/
theorem step_frame_witness :
    (step false linear 300 0 0 100 800 600 cBase 150).2.2 = [Effect.setScroll false 50] ∧
    scrollPos false (step false linear 300 0 0 100 800 600 cBase 150).1 = 50 := by
  have h := step_frame false linear 300 0 0 100 800 600 cBase 150 (by norm_num) (by norm_num)
  constructor
  · rw [h.1]
    norm_num [progressOf, linear, min_def]
  · rw [h.2.1]
    norm_num [progressOf, linear, min_def]

/-- C6: with duration 0, the frame callback resolves the promise with exactly the
computed `targetLocation` whatever the reported timestamp; and the synchronous phase
with merged duration 0 and a clamped target different from the start location does
schedule that first frame (`SyncResult.animate` with duration 0). -/
theorem step_zero_duration :
    (∀ (horizontal : Bool) (ease : ℚ → ℚ)
       (startTime startLocation targetLocation dcw dch : ℚ)
       (c : HTMLElement) (currentTime : ℚ),
       (step horizontal ease 0 startTime startLocation targetLocation dcw dch
          c currentTime).2.1 = .resolved targetLocation) ∧
    (∀ (_target : GoToTarget) (_options : PartialGoToOptions) (horizontal : Bool)
       (goTo : GoToInst) (container : HTMLElement) (layoutTop : Option ℤ) (ease : ℚ → ℚ),
       resolveEase (mergeOptions goTo.options _options) = some ease →
       (mergeOptions goTo.options _options).duration = 0 →
       (clampTarget container
           (preClampLocation (resolveTarget _target) (mergeOptions goTo.options _options)
             horizontal goTo.rtl container layoutTop) goTo.rtl horizontal).1 ≠
         scrollPos horizontal container →
       (scrollToSync _target _options horizontal goTo container layoutTop).1 =
         .animate ease 0 (scrollPos horizontal container)
           ((clampTarget container
             (preClampLocation (resolveTarget _target) (mergeOptions goTo.options _options)
               horizontal goTo.rtl container layoutTop) goTo.rtl horizontal).1)) := by
  constructor
  · intro horizontal ease startTime startLocation targetLocation dcw dch c currentTime
    simp [step]
  · intro _target _options horizontal goTo container layoutTop ease hres hdur0 hne
    rw [scrollToSync_fst hres, if_neg hne, hdur0]

/-- Witness for `step_zero_duration`: a duration-0 frame resolves with the target 100
at an arbitrary timestamp, and a duration-0 call on `cBase` (scrolled to 0) with
target 100 schedules its first frame. -/
theorem step_zero_duration_witness :
    (step false linear 0 0 0 100 800 600 cBase 12345).2.1 = .resolved 100 ∧
    (scrollToSync (.num 100)
        (PartialGoToOptions.mk (some 0) none none none (fun _ => none)) false
        ⟨false, genDefaults⟩ cBase none).1 = .animate easeInOutCubic 0 0 100 := by
  constructor
  · exact step_zero_duration.1 false linear 0 0 100 800 600 cBase 12345
  · have hval : (clampTarget cBase
        (preClampLocation (resolveTarget (.num 100))
          (mergeOptions genDefaults
            (PartialGoToOptions.mk (some 0) none none none (fun _ => none)))
          false false cBase none) false false).1 = 100 := by
      rw [clampTarget_val]
      norm_num [preClampLocation, resolveTarget, getOffset, mergeOptions, genDefaults,
        cBase, HTMLElement.scrollWidth, HTMLElement.offsetWidth, HTMLElement.scrollHeight,
        HTMLElement.offsetHeight, min_def, max_def]
    have hne : (clampTarget cBase
        (preClampLocation (resolveTarget (.num 100))
          (mergeOptions genDefaults
            (PartialGoToOptions.mk (some 0) none none none (fun _ => none)))
          false false cBase none) false false).1 ≠ scrollPos false cBase := by
      rw [hval]
      norm_num [scrollPos, cBase, HTMLElement.scrollTop]
    have h := step_zero_duration.2 (.num 100)
      (PartialGoToOptions.mk (some 0) none none none (fun _ => none)) false
      ⟨false, genDefaults⟩ cBase none easeInOutCubic rfl rfl hne
    rw [h, hval]
    norm_num [scrollPos, cBase, HTMLElement.scrollTop]

/-- C7: (a) per axis, when at frame time the container already satisfies
`clientSize + scroll offset ≥ total scroll size` on the requested axis
(`clientHeight/scrollTop/scrollHeight` vertically, `clientWidth/scrollLeft/scrollWidth`
horizontally), the scroll offset is at an integral position, the computed target lies
strictly beyond the current offset, the run started at that offset, and the easing
curve stays in `[0, 1)` on `[0, 1)` (as every built-in pattern does), the very next
frame resolves the promise with `targetLocation`; (b) no early termination occurs when
the target lies at or below the position just written: the callback schedules the next
frame instead. -/
theorem step_boundary_termination :
    (∀ (horizontal : Bool) (ease : ℚ → ℚ)
       (duration startTime startLocation targetLocation dcw dch : ℚ)
       (c : HTMLElement) (currentTime : ℚ) (m : ℤ),
       0 ≤ duration → startTime ≤ currentTime →
       scrollPos horizontal c = (m : ℚ) →
       totalSize horizontal c ≤ clientSizeOf horizontal dcw dch c + scrollPos horizontal c →
       scrollPos horizontal c < targetLocation →
       startLocation = scrollPos horizontal c →
       (∀ t, 0 ≤ t → t < 1 → 0 ≤ ease t ∧ ease t < 1) →
       (step horizontal ease duration startTime startLocation targetLocation dcw dch
          c currentTime).2.1 = .resolved targetLocation) ∧
    (∀ (horizontal : Bool) (ease : ℚ → ℚ)
       (duration startTime startLocation targetLocation dcw dch : ℚ)
       (c : HTMLElement) (currentTime : ℚ),
       0 ≤ duration → startTime ≤ currentTime →
       progressOf duration (currentTime - startTime) ≠ 1 →
       targetLocation ≤ (⌊startLocation + (targetLocation - startLocation) *
         ease (progressOf duration (currentTime - startTime))⌋ : ℚ) →
       (step horizontal ease duration startTime startLocation targetLocation dcw dch
          c currentTime).2.1 = .nextFrame) := by
  constructor
  · intro horizontal ease duration startTime startLocation targetLocation dcw dch c
      currentTime m hdur ht hm hb htgt hstart hease
    have habs := abs_progress_eq hdur ht
    have hp0 : 0 ≤ progressOf duration (currentTime - startTime) :=
      progressOf_nonneg hdur (sub_nonneg.mpr ht)
    have hp1 : progressOf duration (currentTime - startTime) ≤ 1 :=
      progressOf_le_one _ _
    by_cases hpe : progressOf duration (currentTime - startTime) = 1
    · simp only [step, habs, if_pos hpe]
    · obtain ⟨he0, he1⟩ := hease _ hp0 (lt_of_le_of_ne hp1 hpe)
      have hx1 : (m : ℚ) ≤ startLocation + (targetLocation - startLocation) *
          ease (progressOf duration (currentTime - startTime)) := by
        rw [hstart, hm]
        have : 0 ≤ (targetLocation - (m : ℚ)) *
            ease (progressOf duration (currentTime - startTime)) := by
          apply mul_nonneg _ he0
          rw [hm] at htgt
          linarith
        linarith
      have hx2 : startLocation + (targetLocation - startLocation) *
          ease (progressOf duration (currentTime - startTime)) < targetLocation := by
        rw [hstart, hm]
        rw [hm] at htgt
        nlinarith
      have hfl : (m : ℚ) ≤
          ((⌊startLocation + (targetLocation - startLocation) *
            ease (progressOf duration (currentTime - startTime))⌋ : ℤ) : ℚ) := by
        exact_mod_cast Int.le_floor.mpr hx1
      have hfu : ((⌊startLocation + (targetLocation - startLocation) *
          ease (progressOf duration (currentTime - startTime))⌋ : ℤ) : ℚ) <
          targetLocation :=
        lt_of_le_of_lt (Int.floor_le _) hx2
      cases horizontal
      · simp only [scrollPos, totalSize, clientSizeOf, Bool.false_eq_true, if_false]
          at hm hb htgt
        simp only [step, habs, Bool.false_eq_true, if_false, eq_self_iff_true, if_true,
          setScrollTop_scrollTop, setScrollTop_scrollHeight, setScrollTop_clientHeight,
          setScrollTop_isBody]
        rw [if_neg hpe, if_pos]
        constructor
        · exact hfu
        · calc c.scrollHeight ≤ (if c.isBody then dch else c.clientHeight) + c.scrollTop := hb
            _ ≤ (if c.isBody then dch else c.clientHeight) +
                ((⌊startLocation + (targetLocation - startLocation) *
                  ease (progressOf duration (currentTime - startTime))⌋ : ℤ) : ℚ) := by
                rw [hm]; linarith
      · simp only [scrollPos, totalSize, clientSizeOf, eq_self_iff_true, if_true]
          at hm hb htgt
        simp only [step, habs, Bool.true_eq_false, if_false, eq_self_iff_true, if_true,
          setScrollLeft_scrollLeft, setScrollLeft_scrollWidth, setScrollLeft_clientWidth,
          setScrollLeft_isBody]
        rw [if_neg hpe, if_pos]
        constructor
        · exact hfu
        · calc c.scrollWidth ≤ (if c.isBody then dcw else c.clientWidth) + c.scrollLeft := hb
            _ ≤ (if c.isBody then dcw else c.clientWidth) +
                ((⌊startLocation + (targetLocation - startLocation) *
                  ease (progressOf duration (currentTime - startTime))⌋ : ℤ) : ℚ) := by
                rw [hm]; linarith
  · intro horizontal ease duration startTime startLocation targetLocation dcw dch c
      currentTime hdur ht hpe hle
    have habs := abs_progress_eq hdur ht
    cases horizontal
    · simp only [step, habs, Bool.false_eq_true, if_false, eq_self_iff_true, if_true,
        setScrollTop_scrollTop]
      rw [if_neg hpe, if_neg]
      intro hcond
      exact absurd hcond.1 (not_lt.mpr hle)
    · simp only [step, habs, Bool.true_eq_false, if_false, eq_self_iff_true, if_true,
        setScrollLeft_scrollLeft]
      rw [if_neg hpe, if_neg]
      intro hcond
      exact absurd hcond.1 (not_lt.mpr hle)

/-- Witness for `step_boundary_termination`: on `cBoundary`
(`clientHeight + scrollTop = 200 = scrollHeight`), a vertical run from 100 toward 150
resolves with 150 on the very next frame; with a target 50 at or below the written
position the same frame schedules the next frame instead. -/
theorem step_boundary_termination_witness :
    (step false linear 300 0 100 150 800 600 cBoundary 30).2.1 = .resolved 150 ∧
    (step false linear 300 0 100 50 800 600 cBoundary 30).2.1 = .nextFrame := by
  constructor
  · refine step_boundary_termination.1 false linear 300 0 100 150 800 600 cBoundary 30
      100 (by norm_num) (by norm_num) ?_ ?_ ?_ ?_ (fun t ht h1 => ⟨ht, h1⟩)
    · norm_num [scrollPos, cBoundary, HTMLElement.scrollTop]
    · norm_num [scrollPos, totalSize, clientSizeOf, cBoundary, HTMLElement.scrollTop,
        HTMLElement.scrollHeight, HTMLElement.clientHeight, HTMLElement.isBody]
    · norm_num [scrollPos, cBoundary, HTMLElement.scrollTop]
    · norm_num [scrollPos, cBoundary, HTMLElement.scrollTop]
  · refine step_boundary_termination.2 false linear 300 0 100 50 800 600 cBoundary 30
      (by norm_num) (by norm_num) ?_ ?_
    · norm_num [progressOf, min_def]
    · norm_num [progressOf, linear, min_def]

end GotoSpec
